import Mathlib

/-!
Shallow embedding of the core of `src/index.js` (a chat bot relaying files
to a Zipline file-hosting service) together with proofs of the spec's
claims about it.  Pure data paths of the JavaScript are translated into
Lean functions; I/O steps (HTTP fetches, stream writes) are abstracted
into explicit outcome parameters, and the in-memory JSON-object stores are
modelled as functions from user-id strings to optional records.
-/

namespace Zipline

/-- UploadRecord as fetched from the remote listing (`/api/user/files`):
`{id, originalName/name, url, size, createdAt}`.  Fields that the
JavaScript treats as possibly missing are `Option`s. -/
structure Upload where
  id : String
  originalName : Option String
  name : Option String
  url : Option String
  size : Nat
  createdAt : Option Nat
  deriving Repr, DecidableEq, Inhabited

/-! ### Credential store (src/index.js lines 52-58)

The JavaScript keeps a JSON object `userTokens` mapping user-id strings to
token strings, written through to disk on every mutation (`saveTokens`).
The map itself is modelled as a function `String → Option String`; the
synchronous disk write has no observable effect on the map semantics. -/

def TokenStore : Type := String → Option String

def emptyTokens : TokenStore := fun _ => none

/-- `function getUserToken(userId) { return userTokens[userId] || null; }` —
note `|| null`: a stored empty-string token is falsy in JavaScript, so it
reads back as `null` (absent). -/
def getUserToken (st : TokenStore) (userId : String) : Option String :=
  match st userId with
  | some t => if t = "" then none else some t
  | none => none

/-- `function setUserToken(userId, token) { userTokens[userId] = token; saveTokens(); }` -/
def setUserToken (st : TokenStore) (userId token : String) : TokenStore :=
  fun v => if v = userId then some token else st v

/-- `function deleteUserToken(userId) { delete userTokens[userId]; saveTokens(); }` -/
def deleteUserToken (st : TokenStore) (userId : String) : TokenStore :=
  fun v => if v = userId then none else st v

/-! ### Settings store (src/index.js lines 60-70) -/

/-- The stored per-user record `{ expiry, compression }`, both nullable. -/
structure UserSettings where
  expiry : Option String
  compression : Option String
  deriving Repr, DecidableEq, Inhabited

/-- The argument object of `setUserSettings`: each field comes from
`interaction.options.getString(...)`, which yields a string or `null`. -/
structure SettingsInput where
  expiry : Option String
  compression : Option String
  deriving Repr, DecidableEq, Inhabited

def SettingsStore : Type := String → Option UserSettings

def emptySettings : SettingsStore := fun _ => none

/-- JavaScript `String.prototype.trim()`: strip leading and trailing
whitespace characters. -/
def jsTrim (s : String) : String :=
  String.mk (((s.data.dropWhile Char.isWhitespace).reverse.dropWhile
    Char.isWhitespace).reverse)

/-- The normalisation `x?.trim() || null` applied to each field in
`setUserSettings`: `null`/missing stays `null`; otherwise the string is
trimmed, and a trimmed-empty result is collapsed to `null` (the only falsy
string in JavaScript is the empty string). -/
def normalizeField (x : Option String) : Option String :=
  match x with
  | none => none
  | some s => if jsTrim s = "" then none else some (jsTrim s)

/-- `function getUserSettings(userId) { return userSettings[userId] || { expiry: null, compression: null }; }`
(a stored record object is always truthy). -/
def getUserSettings (st : SettingsStore) (userId : String) : UserSettings :=
  (st userId).getD { expiry := none, compression := none }

/-- `function setUserSettings(userId, settings) { userSettings[userId] = { expiry: settings.expiry?.trim() || null, compression: settings.compression?.trim() || null }; saveSettings(); }` -/
def setUserSettings (st : SettingsStore) (userId : String) (settings : SettingsInput) :
    SettingsStore :=
  fun v =>
    if v = userId then
      some { expiry := normalizeField settings.expiry
             compression := normalizeField settings.compression }
    else st v

/-! ### Theorems about the stores (claims C5, C7, C9, C10) -/

/-- C5 (counterexample): the claim fails for the empty token string.
`setUserToken(U, "")` stores `""`, but `getUserToken` returns
`userTokens[userId] || null`, and the empty string is falsy, so the read
yields absent rather than the stored token. -/
theorem getUserToken_empty_string_counterexample :
    getUserToken (setUserToken emptyTokens "u" "") "u" = none ∧
    getUserToken (setUserToken emptyTokens "u" "") "u" ≠ some "" := by
  constructor <;> simp [getUserToken, setUserToken, emptyTokens]

/-- C5 (amended): for every NON-EMPTY token string `t`, `get` after
`set(u,t)` returns `t`; `get` after `delete(u)` returns absent; a later
`set` on the same user overwrites the earlier one (idempotent upsert);
and `delete` of an absent entry leaves the store unchanged (a no-op, not
an error). -/
theorem tokenStore_get_set_delete :
    (∀ (st : TokenStore) (u t : String), t ≠ "" →
      getUserToken (setUserToken st u t) u = some t)
    ∧ (∀ (st : TokenStore) (u : String),
      getUserToken (deleteUserToken st u) u = none)
    ∧ (∀ (st : TokenStore) (u t t' : String),
      setUserToken (setUserToken st u t) u t' = setUserToken st u t')
    ∧ (∀ (st : TokenStore) (u : String), st u = none → deleteUserToken st u = st) := by
  refine ⟨fun st u t ht => ?_, fun st u => ?_, fun st u t t' => ?_, fun st u h => ?_⟩
  · simp [getUserToken, setUserToken, ht]
  · simp [getUserToken, deleteUserToken]
  · funext v
    by_cases hv : v = u <;> simp [setUserToken, hv]
  · funext v
    by_cases hv : v = u
    · subst hv; simp [deleteUserToken, h]
    · simp [deleteUserToken, hv]

/-- Witness for C5: the amended claim at a concrete store and token. -/
theorem tokenStore_get_set_delete_witness :
    getUserToken (setUserToken emptyTokens "u" "tok") "u" = some "tok"
    ∧ deleteUserToken emptyTokens "u" = emptyTokens :=
  ⟨tokenStore_get_set_delete.1 emptyTokens "u" "tok" (by decide),
   tokenStore_get_set_delete.2.2.2 emptyTokens "u" rfl⟩

/-- C7: a settings `set` followed by `get` round-trips with the
normalisation `x?.trim() || null` applied to each field (trimmed; empty or
whitespace-only collapses to absent); in particular the input
`expiry = " 7d "`, `compression = ""` is stored as
`expiry = "7d"`, `compression` absent. -/
theorem settings_set_get_roundtrip :
    (∀ (st : SettingsStore) (u : String) (inp : SettingsInput),
      getUserSettings (setUserSettings st u inp) u =
        { expiry := normalizeField inp.expiry
          compression := normalizeField inp.compression })
    ∧ (∀ (st : SettingsStore) (u : String),
      getUserSettings
          (setUserSettings st u { expiry := some " 7d ", compression := some "" }) u =
        { expiry := some "7d", compression := none }) := by
  constructor
  · intro st u inp
    simp [getUserSettings, setUserSettings]
  · intro st u
    simp [getUserSettings, setUserSettings, normalizeField]
    constructor <;> decide

/-- C9: mutations for one user leave every other user's stored entry
unchanged, for all three mutators. -/
theorem store_mutation_frame :
    (∀ (st : TokenStore) (u v t : String), v ≠ u → setUserToken st u t v = st v)
    ∧ (∀ (st : TokenStore) (u v : String), v ≠ u → deleteUserToken st u v = st v)
    ∧ (∀ (st : SettingsStore) (u v : String) (inp : SettingsInput), v ≠ u →
      setUserSettings st u inp v = st v) := by
  refine ⟨fun st u v t hv => ?_, fun st u v hv => ?_, fun st u v inp hv => ?_⟩
  · simp [setUserToken, hv]
  · simp [deleteUserToken, hv]
  · simp [setUserSettings, hv]

/-- Witness for C9 at concrete distinct users. -/
theorem store_mutation_frame_witness :
    setUserToken emptyTokens "u" "tok" "v" = emptyTokens "v"
    ∧ deleteUserToken emptyTokens "u" "v" = emptyTokens "v"
    ∧ setUserSettings emptySettings "u" { expiry := some "7d", compression := none } "v" =
        emptySettings "v" :=
  ⟨store_mutation_frame.1 emptyTokens "u" "v" "tok" (by decide),
   store_mutation_frame.2.1 emptyTokens "u" "v" (by decide),
   store_mutation_frame.2.2 emptySettings "u" "v" _ (by decide)⟩

/-- C10: `setUserSettings` replaces the whole stored record rather than
merging.  A user whose stored record has a compression (resp. expiry)
value loses it when a later `set` supplies only the other field. -/
theorem setUserSettings_replaces_whole_record :
    (∀ (st : SettingsStore) (u : String) (pe : Option String) (pc e : String),
      st u = some { expiry := pe, compression := some pc } →
      getUserSettings (setUserSettings st u { expiry := some e, compression := none }) u =
        { expiry := normalizeField (some e), compression := none })
    ∧ (∀ (st : SettingsStore) (u : String) (pc : Option String) (pe c : String),
      st u = some { expiry := some pe, compression := pc } →
      getUserSettings (setUserSettings st u { expiry := none, compression := some c }) u =
        { expiry := none, compression := normalizeField (some c) }) := by
  constructor
  · intro st u pe pc e _
    simp [getUserSettings, setUserSettings, normalizeField]
  · intro st u pc pe c _
    simp [getUserSettings, setUserSettings, normalizeField]

/-- Witness for C10: a user with stored compression `"gzip"` loses it when
a later `set` provides only `expiry`. -/
theorem setUserSettings_replaces_whole_record_witness :
    getUserSettings
        (setUserSettings
          (setUserSettings emptySettings "u" { expiry := some "1d", compression := some "gzip" })
          "u" { expiry := some "7d", compression := none }) "u" =
      { expiry := normalizeField (some "7d"), compression := none } :=
  setUserSettings_replaces_whole_record.1
    (setUserSettings emptySettings "u" { expiry := some "1d", compression := some "gzip" })
    "u" (some "1d") "gzip" "7d" (by simp [setUserSettings, normalizeField]; decide)

/-! ### Pagination session (src/index.js lines 207-298)

`paginateUploads` keeps `page` (mutable, initially 0), computes
`totalPages = Math.ceil(uploads.length / pageSize)` once with
`pageSize = 5`, and mutates `page` inside the component collector's
`collect` handler. -/

def pageSize : Nat := 5

/-- `const totalPages = Math.ceil(uploads.length / pageSize);` —
exact ceiling division on naturals. -/
def sessionTotalPages (numUploads : Nat) : Nat :=
  (numUploads + pageSize - 1) / pageSize

/-- The per-invocation session state: the owning user
(`interaction.user.id`), the item list, and the current page index. -/
structure Session where
  ownerId : String
  uploads : List Upload
  page : Nat
  deriving Repr, DecidableEq

/-- The page mutation in the `collect` handler:
`if (i.customId === 'prev' && page > 0) page--;`
`if (i.customId === 'next' && page < totalPages - 1) page++;`
(the second test reads the already-updated `page`, as in the source;
for `totalPages = 0` JavaScript compares against `-1` and Lean against
`0 - 1 = 0`, and both tests are false either way). -/
def collectStep (totalPages pg : Nat) (customId : String) : Nat :=
  let pg1 := if customId = "prev" ∧ 0 < pg then pg - 1 else pg
  if customId = "next" ∧ pg1 < totalPages - 1 then pg1 + 1 else pg1

/-- Observable outcome of one collected component interaction: either an
`i.reply` notice (with its ephemeral flag) or an `i.update` re-render of
the given page. -/
inductive NavOutcome where
  | notice (content : String) (ephemeral : Bool)
  | update (newPage : Nat)
  deriving Repr, DecidableEq

/-- One `collect` event (src/index.js lines 267-293): the ownership guard
`if (i.user.id !== interaction.user.id)` replies ephemerally and returns
without touching `page`; otherwise `page` is updated per `collectStep`
and the view re-rendered. -/
def navStep (s : Session) (senderId customId : String) : Session × NavOutcome :=
  if senderId ≠ s.ownerId then
    (s, .notice "Only you can navigate pages!" true)
  else
    let pg := collectStep (sessionTotalPages s.uploads.length) s.page customId
    ({ s with page := pg }, .update pg)

/-- C3: for a non-empty upload list, `totalPages` is the ceiling of
`N / 5`, and navigation is a no-op at the boundaries: `next` on the last
page and `prev` on page 0 leave the session unchanged. -/
theorem pagination_bounds (uploads : List Upload) (hne : uploads ≠ []) :
    sessionTotalPages uploads.length = ⌈(uploads.length : ℚ) / 5⌉₊
    ∧ (∀ s : Session, s.uploads = uploads →
        s.page = sessionTotalPages uploads.length - 1 →
        (navStep s s.ownerId "next").1 = s)
    ∧ (∀ s : Session, s.uploads = uploads → s.page = 0 →
        (navStep s s.ownerId "prev").1 = s) := by
  refine ⟨?_, fun s hu hp => ?_, fun s hu hp => ?_⟩
  · set n := uploads.length with hn
    have hpos : 0 < n := by
      simpa [hn, List.length_pos] using hne
    have hT : sessionTotalPages n ≠ 0 := by
      simp only [sessionTotalPages, pageSize]
      omega
    rw [eq_comm, Nat.ceil_eq_iff hT]
    have h1 : 1 ≤ sessionTotalPages n := Nat.one_le_iff_ne_zero.mpr hT
    have hle : n ≤ 5 * sessionTotalPages n := by
      simp only [sessionTotalPages, pageSize]
      omega
    have hlt : 5 * (sessionTotalPages n - 1) < n := by
      simp only [sessionTotalPages, pageSize]
      omega
    constructor
    · rw [lt_div_iff₀ (by norm_num : (0 : ℚ) < 5)]
      calc ((sessionTotalPages n - 1 : ℕ) : ℚ) * 5
          = ((5 * (sessionTotalPages n - 1) : ℕ) : ℚ) := by push_cast; ring
        _ < n := by exact_mod_cast hlt
    · rw [div_le_iff₀ (by norm_num : (0 : ℚ) < 5)]
      calc (n : ℚ) ≤ ((5 * sessionTotalPages n : ℕ) : ℚ) := by exact_mod_cast hle
        _ = (sessionTotalPages n : ℚ) * 5 := by push_cast; ring
  · cases s
    simp_all [navStep, collectStep]
  · cases s
    simp_all [navStep, collectStep]

/-- Witness for C3: 12 uploads give 3 pages; `next` on page index 2 and
`prev` on page index 0 are no-ops. -/
theorem pagination_bounds_witness :
    (navStep { ownerId := "u", uploads := List.replicate 12 (default : Upload), page := 2 }
        "u" "next").1 =
      { ownerId := "u", uploads := List.replicate 12 (default : Upload), page := 2 }
    ∧ (navStep { ownerId := "u", uploads := List.replicate 12 (default : Upload), page := 0 }
        "u" "prev").1 =
      { ownerId := "u", uploads := List.replicate 12 (default : Upload), page := 0 } := by
  have h := pagination_bounds (List.replicate 12 (default : Upload)) (by simp)
  exact ⟨h.2.1 _ rfl (by decide), h.2.2 _ rfl rfl⟩

/-- C4: a navigation event whose sender differs from the session owner is
rejected with an ephemeral requester-only notice and leaves the session
(in particular `page`) unchanged. -/
theorem nonowner_navigation_rejected (s : Session) (senderId customId : String)
    (h : senderId ≠ s.ownerId) :
    navStep s senderId customId = (s, .notice "Only you can navigate pages!" true) := by
  simp [navStep, h]

/-- Witness for C4 at a concrete session and intruding sender. -/
theorem nonowner_navigation_rejected_witness :
    navStep { ownerId := "u", uploads := [default], page := 0 } "v" "next" =
      ({ ownerId := "u", uploads := [(default : Upload)], page := 0 },
        .notice "Only you can navigate pages!" true) :=
  nonowner_navigation_rejected _ "v" "next" (by decide)

/-! ### Fetching all uploads (src/index.js lines 91-104)

`ziplineFetchAllUserUploads` loops `while (true)`, fetching page 1, 2, …
Each response carries an items array `resp.page` (possibly missing) and a
reported total page count `resp.pages`.  The loop breaks when
`!resp.page || resp.page.length === 0`, pushes the items otherwise, and
then breaks when `page >= resp.pages`.  The remote is modelled as a
function from page number to response; the unbounded `while (true)` is
modelled with explicit fuel, `none` meaning the fuel ran out. -/

/-- One `/api/user/files` response body: `page` is the items array
(`none` models a missing field), `pages` the reported total. -/
structure PageResp where
  page : Option (List Upload)
  pages : Nat

def fetchAllAux (remote : Nat → PageResp) : Nat → Nat → List Upload → Option (List Upload)
  | 0, _, _ => none
  | fuel + 1, pg, acc =>
    let resp := remote pg
    match resp.page with
    | none => some acc
    | some items =>
      if items = [] then some acc
      else if resp.pages ≤ pg then some (acc ++ items)
      else fetchAllAux remote fuel (pg + 1) (acc ++ items)

/-- The loop of `ziplineFetchAllUserUploads`, starting at `page = 1` with
an empty accumulator. -/
def ziplineFetchAllUserUploads (remote : Nat → PageResp) (fuel : Nat) :
    Option (List Upload) :=
  fetchAllAux remote fuel 1 []

/-- Concatenation, in fetch order, of the item arrays of `count`
consecutive pages starting at page `start`. -/
def pagesConcat (remote : Nat → PageResp) (start : Nat) : Nat → List Upload
  | 0 => []
  | count + 1 => ((remote start).page).getD [] ++ pagesConcat remote (start + 1) count

theorem fetchAllAux_consistent (remote : Nat → PageResp) (P : Nat)
    (hP : ∀ i, (remote i).pages = P)
    (hne : ∀ i, 1 ≤ i → i ≤ P → ((remote i).page).getD [] ≠ []) :
    ∀ (fuel start : Nat) (acc : List Upload), 1 ≤ start → start ≤ P →
      start + fuel = P + 1 →
      fetchAllAux remote fuel start acc = some (acc ++ pagesConcat remote start fuel) := by
  intro fuel
  induction fuel with
  | zero =>
    intro start acc h1 hle hsum
    exfalso
    omega
  | succ fuel ih =>
    intro start acc h1 hle hsum
    have hne' := hne start h1 hle
    cases hpg : (remote start).page with
    | none => simp [hpg] at hne'
    | some items =>
      have hitems : items ≠ [] := by simpa [hpg] using hne'
      by_cases hlast : P ≤ start
      · have hfuel : fuel = 0 := by omega
        subst hfuel
        simp [fetchAllAux, hpg, hitems, hP, hlast, pagesConcat]
      · have hrec := ih (start + 1) (acc ++ items) (by omega) (by omega) (by omega)
        simp only [fetchAllAux, hpg, hP]
        rw [if_neg hitems, if_neg hlast, hrec]
        simp [pagesConcat, hpg]

theorem fetchAllAux_stops_at_empty (remote : Nat → PageResp) :
    ∀ (fuel start : Nat) (acc : List Upload),
      (∃ m, start ≤ m ∧ m < start + fuel ∧ ((remote m).page).getD [] = []) →
      ∃ r, fetchAllAux remote fuel start acc = some r := by
  intro fuel
  induction fuel with
  | zero =>
    intro start acc ⟨m, hm1, hm2, _⟩
    exfalso
    omega
  | succ fuel ih =>
    intro start acc ⟨m, hm1, hm2, hm⟩
    cases hpg : (remote start).page with
    | none => exact ⟨acc, by simp [fetchAllAux, hpg]⟩
    | some items =>
      by_cases hitems : items = []
      · subst hitems
        exact ⟨acc, by simp [fetchAllAux, hpg]⟩
      · by_cases hlast : (remote start).pages ≤ start
        · exact ⟨acc ++ items, by simp [fetchAllAux, hpg, hitems, hlast]⟩
        · have hms : m ≠ start := by
            intro he
            rw [he, hpg] at hm
            exact hitems (by simpa using hm)
          have hrec := ih (start + 1) (acc ++ items) ⟨m, by omega, by omega, hm⟩
          obtain ⟨r, hr⟩ := hrec
          refine ⟨r, ?_⟩
          simp only [fetchAllAux, hpg]
          rw [if_neg hitems, if_neg hlast, hr]

/-- C2: for a consistent remote reporting `P` total pages with non-empty
pages `1..P`, the loop terminates within `P` iterations and returns the
pages concatenated in fetch order; and whenever some reachable page is
reported empty, the loop terminates regardless of what `pages` claims
(the empty-page check is a backstop against misreported totals). -/
theorem fetchAll_terminates_and_concatenates :
    (∀ (remote : Nat → PageResp) (P : Nat), 1 ≤ P →
      (∀ i, (remote i).pages = P) →
      (∀ i, 1 ≤ i → i ≤ P → ((remote i).page).getD [] ≠ []) →
      ziplineFetchAllUserUploads remote P = some (pagesConcat remote 1 P))
    ∧ (∀ (remote : Nat → PageResp) (n : Nat), 1 ≤ n →
      ((remote n).page).getD [] = [] →
      ∃ r, ziplineFetchAllUserUploads remote n = some r) := by
  constructor
  · intro remote P hP1 hP hne
    have h := fetchAllAux_consistent remote P hP hne P 1 [] (by omega) hP1 (by omega)
    simpa [ziplineFetchAllUserUploads] using h
  · intro remote n hn1 hn
    exact fetchAllAux_stops_at_empty remote n 1 [] ⟨n, by omega, by omega, hn⟩

/-- A concrete consistent remote with two one-item pages. -/
def sampleRemote : Nat → PageResp := fun i =>
  if i = 1 then { page := some [{ (default : Upload) with id := "a" }], pages := 2 }
  else if i = 2 then { page := some [{ (default : Upload) with id := "b" }], pages := 2 }
  else { page := some [{ (default : Upload) with id := "c" }], pages := 2 }

/-- A remote that misreports `pages` but serves an empty page 1. -/
def sampleEmptyRemote : Nat → PageResp := fun _ =>
  { page := some [], pages := 1000000 }

/-- Witness for C2: the loop on `sampleRemote` returns both pages in
order, and on `sampleEmptyRemote` it terminates despite the huge reported
total. -/
theorem fetchAll_terminates_and_concatenates_witness :
    ziplineFetchAllUserUploads sampleRemote 2 = some (pagesConcat sampleRemote 1 2)
    ∧ ∃ r, ziplineFetchAllUserUploads sampleEmptyRemote 1 = some r := by
  constructor
  · refine fetchAll_terminates_and_concatenates.1 sampleRemote 2 (by omega)
      (fun i => ?_) (fun i h1 h2 => ?_)
    · by_cases hi1 : i = 1
      · subst hi1; rfl
      · by_cases hi2 : i = 2
        · subst hi2; rfl
        · simp [sampleRemote, hi1, hi2]
    · interval_cases i <;> simp [sampleRemote]
  · exact fetchAll_terminates_and_concatenates.2 sampleEmptyRemote 1 (by omega) (by simp [sampleEmptyRemote])

/-! ### Upload relay and its staging file (src/index.js lines 107-149)

`ziplineUploadFromUrl` computes `tmpPath`, fetches the source URL, throws
`'Failed to download attachment'` on a non-ok response (before any file is
created), creates the write stream at `tmpPath` (the staging file now
exists), awaits the piping promise (which rejects on a stream error),
POSTs the multipart form, runs `fs.unlinkSync(tmpPath)`, and only then
throws on a non-ok upload status or returns the parsed body.  There is no
`try`/`finally`; the `unlinkSync` is reached only on the straight-line
path.  The four I/O outcomes are abstracted into an environment record;
header construction from the user settings does not affect the staging
file and is omitted. -/

structure UploadEnv where
  dlOk : Bool
  writeOk : Bool
  uploadResp : Option Bool
  deriving Repr, DecidableEq

inductive UploadErr where
  | transferDownload
  | transferWrite
  | uploadThrew
  | remoteError
  deriving Repr, DecidableEq

structure UploadOutcome where
  result : Except UploadErr Unit
  tmpExists : Bool
  deriving Repr

/-- The control flow of `ziplineUploadFromUrl`, tracking whether the
staging file at `tmpPath` exists when the call returns or throws. -/
def ziplineUploadFromUrl (env : UploadEnv) : UploadOutcome :=
  if env.dlOk = false then
    { result := .error .transferDownload, tmpExists := false }
  else if env.writeOk = false then
    { result := .error .transferWrite, tmpExists := true }
  else
    match env.uploadResp with
    | none => { result := .error .uploadThrew, tmpExists := true }
    | some ok =>
      if ok = false then { result := .error .remoteError, tmpExists := false }
      else { result := .ok (), tmpExists := false }

/-- C1 (counterexample): a failure while writing the source bytes (the
piping promise rejects) propagates a `TransferError` with the staging
file still on disk — there is no `finally` cleanup. -/
theorem upload_staging_leak_counterexample :
    (ziplineUploadFromUrl { dlOk := true, writeOk := false, uploadResp := none }).result =
      .error .transferWrite
    ∧ (ziplineUploadFromUrl { dlOk := true, writeOk := false, uploadResp := none }).tmpExists =
      true := by
  exact ⟨rfl, rfl⟩

/-- C1 (amended): the staging file is absent exactly on the success path,
the `RemoteError` path (the `unlinkSync` precedes the status check), and
the download-failure path (the file was never created); a failure while
writing the source bytes, or an exception from the upload request itself,
leaves the staging file behind. -/
theorem upload_staging_cleanup_characterization (env : UploadEnv) :
    (ziplineUploadFromUrl env).tmpExists = false ↔
      ((ziplineUploadFromUrl env).result = .ok ()
        ∨ (ziplineUploadFromUrl env).result = .error .remoteError
        ∨ (ziplineUploadFromUrl env).result = .error .transferDownload) := by
  rcases env with ⟨dl, wr, ur⟩
  cases dl <;> cases wr <;> rcases ur with _ | (_ | _) <;>
    simp [ziplineUploadFromUrl]

/-! ### Collector lifecycle (src/index.js lines 265-297)

`paginateUploads` creates a message-component collector with
`{ time: 60000 }`.  The platform library delivers each button press to
the `collect` handler while the collector is live, fires `end` exactly
once when the 60-second window elapses, and delivers nothing afterwards;
the `end` handler edits the message with `components: []`, stripping the
navigation controls.  The delivery discipline is modelled as a list of
events folded over a state that records whether the collector is still
active. -/

inductive CEvent where
  | nav (senderId customId : String)
  | timeout
  deriving Repr, DecidableEq

inductive CAction where
  | editClearComponents
  | noticeReply (content : String) (ephemeral : Bool)
  | updateRender (page : Nat)
  deriving Repr, DecidableEq

structure CollectorState where
  sess : Session
  active : Bool
  deriving Repr, DecidableEq

def collectorStep (cs : CollectorState) (e : CEvent) : CollectorState × List CAction :=
  if cs.active = false then (cs, [])
  else
    match e with
    | .timeout => ({ cs with active := false }, [.editClearComponents])
    | .nav senderId customId =>
      let r := navStep cs.sess senderId customId
      ({ cs with sess := r.1 },
        [match r.2 with
          | .notice c eph => .noticeReply c eph
          | .update p => .updateRender p])

def collectorRun : CollectorState → List CEvent → CollectorState × List CAction
  | cs, [] => (cs, [])
  | cs, e :: es =>
    let r := collectorStep cs e
    let r2 := collectorRun r.1 es
    (r2.1, r.2 ++ r2.2)

theorem collectorRun_inactive (s : Session) (es : List CEvent) :
    collectorRun { sess := s, active := false } es = ({ sess := s, active := false }, []) := by
  induction es with
  | nil => rfl
  | cons e es ih => simp [collectorRun, collectorStep, ih]

/-- C6: when the timeout fires before any navigation event is accepted,
the session expires exactly once — the whole emitted action sequence is
the single final `components: []` edit — and no event delivered
afterwards (navigation or otherwise) is processed or changes the
session. -/
theorem idle_timeout_expires_once (s : Session) (rest : List CEvent) :
    (collectorRun { sess := s, active := true } (CEvent.timeout :: rest)).1 =
      { sess := s, active := false }
    ∧ (collectorRun { sess := s, active := true } (CEvent.timeout :: rest)).2 =
      [CAction.editClearComponents] := by
  have h := collectorRun_inactive s rest
  constructor <;> simp [collectorRun, collectorStep, h]

/-! ### Service stats recovery (src/index.js lines 331-335 and 427-483)

`ziplineGetStats` throws on a non-ok response.  Inside the `stats`
subcommand the call is wrapped in `try { ... } catch { zipStats =
{ error: 'Unavailable' } }`, and likewise `ziplineGetMe` falls back to a
default profile; the handler then always edits the reply with the
assembled content.  HTTP outcomes are modelled as explicit response
records; the `Except` result of the handler models whether it raises to
the `interactionCreate` boundary. -/

structure ZStats where
  users : Nat
  files : Nat
  size : Nat
  deriving Repr, DecidableEq, Inhabited

structure MeProfile where
  username : String
  quotaUsed : Nat
  quotaMax : Nat
  deriving Repr, DecidableEq, Inhabited

structure HttpResp (α : Type) where
  ok : Bool
  status : Nat
  body : α

/-- `async function ziplineGetStats()`: throws `Zipline /api/stats error
<status>` on a non-ok response. -/
def ziplineGetStats (resp : HttpResp ZStats) : Except String ZStats :=
  if resp.ok = false then .error ("Zipline /api/stats error " ++ toString resp.status)
  else .ok resp.body

/-- `async function ziplineGetMe(token)`: throws `Zipline /api/user error
<status>` on a non-ok response. -/
def ziplineGetMe (resp : HttpResp MeProfile) : Except String MeProfile :=
  if resp.ok = false then .error ("Zipline /api/user error " ++ toString resp.status)
  else .ok resp.body

/-- The service portion of the stats reply: either the fetched numbers or
the `{ error: 'Unavailable' }` placeholder rendered as an error line. -/
inductive ZiplineStatsSection where
  | stats (users files size : Nat)
  | unavailable (msg : String)
  deriving Repr, DecidableEq

/-- The `catch`-guarded profile fetch of the stats subcommand:
`userMe = { username: 'Unknown', quota: { used: 0, max: 0 } }` on
failure. -/
def meOrDefault (meResp : HttpResp MeProfile) : MeProfile :=
  match ziplineGetMe meResp with
  | .ok m => m
  | .error _ => { username := "Unknown", quotaUsed := 0, quotaMax := 0 }

/-- The `stats` subcommand body: both remote fetches are individually
`try`/`catch`-guarded, so the handler always produces a reply
(`Except.ok`) instead of raising to the event boundary. -/
def statsCommand (statsResp : HttpResp ZStats) (meResp : HttpResp MeProfile) :
    Except String (ZiplineStatsSection × MeProfile) :=
  let zipSection : ZiplineStatsSection :=
    match ziplineGetStats statsResp with
    | .ok s => .stats s.users s.files s.size
    | .error _ => .unavailable "Unavailable"
  .ok (zipSection, meOrDefault meResp)

/-- C8: the stats handler never propagates an error to the event
boundary, and when the service-stats fetch fails the reply is still
produced with the service portion reported unavailable. -/
theorem stats_failure_recovered_locally :
    (∀ (sr : HttpResp ZStats) (mr : HttpResp MeProfile),
      ∃ v, statsCommand sr mr = .ok v)
    ∧ (∀ (sr : HttpResp ZStats) (mr : HttpResp MeProfile), sr.ok = false →
      statsCommand sr mr = .ok (.unavailable "Unavailable", meOrDefault mr)) := by
  constructor
  · intro sr mr
    exact ⟨_, rfl⟩
  · intro sr mr h
    simp [statsCommand, ziplineGetStats, h]

/-- Witness for C8: a 500 from `/api/stats` still yields a reply with the
service portion unavailable. -/
theorem stats_failure_recovered_locally_witness :
    statsCommand { ok := false, status := 500, body := default }
        { ok := true, status := 200, body := default } =
      .ok (.unavailable "Unavailable",
        meOrDefault { ok := true, status := 200, body := default }) :=
  stats_failure_recovered_locally.2 _ _ rfl

end Zipline
